import Mathlib

/-!
Shallow embedding of `hm-mqtt-bridge.py` (homematic-mqtt-bridge):
the stateful translation engine between a Homematic controller and MQTT.

Python scalar values are modelled by the inductive `Value`; dictionaries are
insertion-ordered association lists (`dictGet` / `dictSet` mirror Python
`dict.get` and item assignment: updating an existing key keeps its position,
a fresh key is appended).  Machine floats are modelled as exact rationals.
-/

/-- One Python value as it occurs in this program: booleans, numbers
(modelled as exact rationals), strings, lists and dictionaries. -/
inductive Value where
  | vBool : Bool → Value
  | vNum : ℚ → Value
  | vStr : String → Value
  | vList : List Value → Value
  | vDict : List (String × Value) → Value

/-- Python `dict.get`: the binding of the key in the association list
(the lists built here never carry duplicate keys, matching a dict). -/
def dictGet {α : Type} (d : List (String × α)) (k : String) : Option α :=
  match d with
  | [] => none
  | p :: rest => if p.1 = k then some p.2 else dictGet rest k

/-- Python `d[k] = v`: update the existing binding in place (key position
preserved, as dict insertion order is), else append at the end. -/
def dictSet {α : Type} (d : List (String × α)) (k : String) (v : α) : List (String × α) :=
  match d with
  | [] => [(k, v)]
  | p :: rest => if p.1 = k then (k, v) :: rest else p :: dictSet rest k v

mutual

/-- Python `==` on values: booleans compare numerically with numbers
(`True == 1`), strings by content, lists elementwise, values of otherwise
different types are unequal.  (Python dict `==` ignores insertion order;
the ordered comparison used here is never exercised on dicts by the
bridge, which only compares event scalars.) -/
def pyEq : Value → Value → Bool
  | .vBool a, .vBool b => a == b
  | .vBool a, .vNum q => (if a then (1 : ℚ) else 0) == q
  | .vNum q, .vBool b => q == (if b then (1 : ℚ) else 0)
  | .vNum a, .vNum b => a == b
  | .vStr a, .vStr b => a == b
  | .vList a, .vList b => pyEqList a b
  | .vDict a, .vDict b => pyEqPairs a b
  | _, _ => false

def pyEqList : List Value → List Value → Bool
  | [], [] => true
  | a :: as, b :: bs => pyEq a b && pyEqList as bs
  | _, _ => false

def pyEqPairs : List (String × Value) → List (String × Value) → Bool
  | [], [] => true
  | (k1, v1) :: as, (k2, v2) :: bs => k1 == k2 && pyEq v1 v2 && pyEqPairs as bs
  | _, _ => false

end

/-- Python truthiness of a value (`if value:`). -/
def pyTruthy : Value → Bool
  | .vBool b => b
  | .vNum q => q != 0
  | .vStr s => s ≠ ""
  | .vList l => !l.isEmpty
  | .vDict d => !d.isEmpty

/-- Decimal digits of the fractional part of `q` (expects `0 ≤ q < 1`),
produced with explicit fuel; every binary float terminates well within the
fuel used below. -/
def fracDigits : ℚ → Nat → String
  | _, 0 => ""
  | q, n + 1 =>
    if q = 0 then ""
    else
      let d : ℤ := ⌊q * 10⌋
      toString d ++ fracDigits (q * 10 - (d : ℚ)) n

/-- Python `str()` of a number: integers render as plain decimal, other
rationals as sign, integer part, a dot and the decimal expansion.  (CPython
prints the shortest float repr; for the exact rationals handled by the
bridge the plain decimal expansion coincides.) -/
def numToStr (q : ℚ) : String :=
  if q.den = 1 then toString q.num
  else
    let sgn := if q < 0 then "-" else ""
    let a := |q|
    sgn ++ toString ⌊a⌋ ++ "." ++ fracDigits (a - (⌊a⌋ : ℚ)) 1100

/-- JSON string escaping as done by `json.dumps` for the characters this
program can produce (quote, backslash, newline, tab, carriage return). -/
def jsonEscape (s : String) : String :=
  s.foldl
    (fun acc c =>
      acc ++
        if c = '"' then "\\\""
        else if c = '\\' then "\\\\"
        else if c = '\n' then "\\n"
        else if c = '\t' then "\\t"
        else if c = '\r' then "\\r"
        else String.singleton c)
    ""

def jsonStr (s : String) : String := "\"" ++ jsonEscape s ++ "\""

mutual

/-- `json.dumps` of one value with CPython's default separators. -/
def jsonVal : Value → String
  | .vBool b => if b then "true" else "false"
  | .vNum q => numToStr q
  | .vStr s => jsonStr s
  | .vList l => "[" ++ jsonVals l ++ "]"
  | .vDict d => "\x7b" ++ jsonPairs d ++ "\x7d"

def jsonVals : List Value → String
  | [] => ""
  | [v] => jsonVal v
  | v :: rest => jsonVal v ++ ", " ++ jsonVals rest

def jsonPairs : List (String × Value) → String
  | [] => ""
  | [(k, v)] => jsonStr k ++ ": " ++ jsonVal v
  | (k, v) :: rest => jsonStr k ++ ": " ++ jsonVal v ++ ", " ++ jsonPairs rest

end

/-- A message handed to `_publish`: a dict, bool, number or string
(the `bytes` passthrough of `_publish` is never used by the bridge). -/
inductive Msg where
  | mDict : List (String × Value) → Msg
  | mBool : Bool → Msg
  | mNum : ℚ → Msg
  | mStr : String → Msg

/-- The serialization performed inside `_publish` before handing bytes to
the MQTT client: dicts via `json.dumps`, booleans as `"OFF"`/`"ON"`
(indexing `[b"OFF", b"ON"]` with the bool), numbers via `str`, strings
unchanged.  The bytes sent on the wire are the UTF-8 encoding of the
returned string. -/
def serialize : Msg → String
  | .mDict d => jsonVal (.vDict d)
  | .mBool b => if b then "ON" else "OFF"
  | .mNum q => numToStr q
  | .mStr s => s

/-- Topics used by the bridge, in structured form; `Topic.render` produces
the exact strings built by the Python code. -/
inductive Topic where
  | availability (device : String)
  | attributes (device channel : String)
  | state (device channel : String)
  | press (device channel field : String)
  | action (device channel : String)
  | setLevel (device channel : String)
  | discovery (component nodeId objectId : String)

/-- The topic string exactly as formatted in the source
(`MQTT_PREFIX = "Homematic"`, discovery prefix `"homeassistant"`). -/
def Topic.render : Topic → String
  | .availability d => "Homematic/" ++ d ++ "/availability"
  | .attributes d c => "Homematic/" ++ d ++ "/" ++ c ++ "/attributes"
  | .state d c => "Homematic/" ++ d ++ "/" ++ c ++ "/state"
  | .press d c f => "Homematic/" ++ d ++ "/" ++ c ++ "/" ++ f
  | .action d c => "Homematic/" ++ d ++ "/" ++ c ++ "/action"
  | .setLevel d c => "Homematic/" ++ d ++ "/" ++ c ++ "/set_level"
  | .discovery comp node obj => "homeassistant/" ++ comp ++ "/" ++ node ++ "/" ++ obj ++ "/config"

/-- Side effects of the discovery and event paths: MQTT publishes
(topic, pre-serialization message, retain flag), MQTT subscriptions and
log lines. -/
inductive Effect where
  | publish (topic : Topic) (payload : Msg) (retain : Bool)
  | subscribe (topic : Topic)
  | logError (msg : String)
  | logWarning (msg : String)

/-- Python 3 `round()` to an integer: round half to even. -/
def pyRound (q : ℚ) : ℤ :=
  let f : ℤ := ⌊q⌋
  if q - (f : ℚ) < 1 / 2 then f
  else if (1 : ℚ) / 2 < q - (f : ℚ) then f + 1
  else if f % 2 = 0 then f else f + 1

/-- Python `s.split(sep)` for a one-character separator, over char lists. -/
def splitChar (sep : Char) : List Char → List (List Char)
  | [] => [[]]
  | c :: r =>
    if c = sep then [] :: splitChar sep r
    else
      match splitChar sep r with
      | [] => [[c]]
      | g :: gs => (c :: g) :: gs

/-- Python `s.split(sep)` returning strings. -/
def pySplit (s : String) (sep : Char) : List String :=
  (splitChar sep s.toList).map List.asString

/-- Python `s.split(":", 1)` followed by unpacking into two names:
`some (before, after first colon)` when a colon is present, `none` when the
split yields a single element and the unpacking raises `ValueError`. -/
def pySplit1 (s : String) : Option (String × String) :=
  let cs := s.toList
  if cs.any (fun c => c = ':') then
    some ((cs.takeWhile (fun c => c ≠ ':')).asString,
      ((cs.dropWhile (fun c => c ≠ ':')).drop 1).asString)
  else none

/-- Python `str.lower()` (ASCII range, which covers every field name the
controller delivers). -/
def pyLower (s : String) : String :=
  (s.toList.map Char.toLower).asString

/-- Decide whether the first char list is a prefix of the second. -/
def prefixList : List Char → List Char → Bool
  | [], _ => true
  | _ :: _, [] => false
  | a :: as, b :: bs => a == b && prefixList as bs

/-- Python `str.endswith(suffix)`. -/
def pyEndsWith (s suf : String) : Bool :=
  prefixList suf.toList.reverse s.toList.reverse

def digitsVal (cs : List Char) : Nat :=
  cs.foldl (fun a c => a * 10 + (c.toNat - 48)) 0

/-- Strip a leading `+` or `-` sign, returning the sign as `1` or `-1`. -/
def stripSign (cs : List Char) : Int × List Char :=
  if cs.head? = some '-' then (-1, cs.tail)
  else if cs.head? = some '+' then (1, cs.tail)
  else (1, cs)

/-- Python `int()` on a string: optional sign followed by decimal digits
(whitespace trimming and digit-group underscores are not exercised by MQTT
topic segments and are omitted). -/
def pyInt (s : String) : Option Int :=
  let p := stripSign s.toList
  if p.2 ≠ [] ∧ p.2.all Char.isDigit then some (p.1 * digitsVal p.2) else none

/-- Python `float()` on a string, restricted to the decimal-literal core:
optional sign, digits with an optional fractional part, optional exponent.
(Whitespace trimming, digit-group underscores and `inf`/`nan` forms are
omitted; the spec's set_level payloads are decimal literals.) -/
def pyFloat (s : String) : Option ℚ :=
  let sp := stripSign s.toList
  let ip := sp.2.takeWhile Char.isDigit
  let cs1 := sp.2.dropWhile Char.isDigit
  let fp :=
    if cs1.head? = some '.' then cs1.tail.takeWhile Char.isDigit else []
  let cs2 :=
    if cs1.head? = some '.' then cs1.tail.dropWhile Char.isDigit else cs1
  if ip.isEmpty ∧ fp.isEmpty then none
  else
    let mant : ℚ := (digitsVal ip : ℚ) + (digitsVal fp : ℚ) / ((10 : ℚ) ^ fp.length)
    if cs2.isEmpty then some ((sp.1 : ℚ) * mant)
    else if cs2.head? = some 'e' ∨ cs2.head? = some 'E' then
      let ep := stripSign cs2.tail
      if ep.2 ≠ [] ∧ ep.2.all Char.isDigit then
        some ((sp.1 : ℚ) * mant * (10 : ℚ) ^ (ep.1 * (digitsVal ep.2 : Int)))
      else none
    else none

example : pyRound (37 / 100 * 100 : ℚ) = 37 := by norm_num [pyRound]
example : pyRound (1 / 2 : ℚ) = 0 := by norm_num [pyRound]

/-- `HM_INTERFACE_ID + "-" + HM_REMOTE`, the expected sender id checked by
`_check_interface_id`. -/
def expectedInterfaceId : String := "mqttbridge-default"

def BINARY_SENSOR_TYPES : List String := ["MAINTENANCE"]

def COVER_TYPES : List String := ["SHUTTER_VIRTUAL_RECEIVER"]

def DEVICE_TRIGGER_TYPES : List String := ["KEY_TRANSCEIVER"]

def SENSOR_TYPES : List String :=
  ["ALARM_COND_SWITCH_TRANSMITTER", "BLIND_WEEK_PROFILE", "COND_SWITCH_TRANSMITTER",
   "ENERGIE_METER_TRANSMITTER", "ROTARY_HANDLE_TRANSCEIVER", "SHUTTER_TRANSMITTER",
   "SMOKE_DETECTOR", "SWITCH_TRANSMITTER", "SWITCH_WEEK_PROFILE"]

def SWITCH_TYPES : List String := ["SWITCH_VIRTUAL_RECEIVER"]

/-- `SENSOR_UNITS.get(devtype)`. -/
def SENSOR_UNITS (t : String) : Option String :=
  if t = "SHUTTER_TRANSMITTER" then some "%" else none

/-- The lowercased maintenance flag names. -/
def MAINTENANCE_FLAGS : List String :=
  ["actual_temperature_status", "config_pending", "duty_cycle", "error_code",
   "error_overheat", "low_bat", "operating_voltage_status", "sabotage",
   "time_of_operation_status", "unreach"]

/-- `ROTARY_HANDLE_VALUES.get(value, "unknown")`: a Python dict keyed by the
ints 0, 1, 2 and read with `==` semantics (so `True` matches key 1). -/
def ROTARY_HANDLE_VALUES (v : Value) : String :=
  if pyEq v (.vNum 0) then "closed"
  else if pyEq v (.vNum 1) then "tilted"
  else if pyEq v (.vNum 2) then "open"
  else "unknown"

/-- `SMOKE_DETECTOR_VALUES.get(value, "unknown")`. -/
def SMOKE_DETECTOR_VALUES (v : Value) : String :=
  if pyEq v (.vNum 0) then "off"
  else if pyEq v (.vNum 1) then "primary"
  else if pyEq v (.vNum 2) then "intrusion"
  else if pyEq v (.vNum 3) then "secondary"
  else "unknown"

/-- `HM_COVER_CHANNEL_MAP.get(index)` for the dict `{4: 3}`. -/
def HM_COVER_CHANNEL_MAP (idx : Value) : Option Value :=
  if pyEq idx (.vNum 4) then some (.vNum 3) else none

/-- The registries owned by `HomematicMqttBridge`: `_ha_devices` maps a
device address to its discovery-identity dict, `_ha_attributes` maps a
channel address to its attribute snapshot. -/
structure BridgeState where
  haDevices : List (String × List (String × Value))
  haAttributes : List (String × List (String × Value))

/-- Python `str()` of a value, used when a channel index is interpolated
into a topic (the bridge only ever formats strings and integers this way;
the list and dict cases approximate `repr`-based rendering and are
unreachable for controller-delivered indices). -/
def pyStr : Value → String
  | .vStr s => s
  | .vBool b => if b then "True" else "False"
  | .vNum q => numToStr q
  | .vList l => jsonVal (.vList l)
  | .vDict d => jsonVal (.vDict d)

/-- `dev.get(k)` when the field is expected to be a string; the controller
delivers descriptor fields as strings, so a present non-string field is
treated like an absent one. -/
def getStr (dev : List (String × Value)) (k : String) : Option String :=
  match dictGet dev k with
  | some (.vStr s) => some s
  | _ => none

/-- `f"{dev.get(k)}"`: a missing field formats as `"None"`. -/
def fmtField (dev : List (String × Value)) (k : String) : String :=
  match dictGet dev k with
  | some v => pyStr v
  | none => "None"

/-- `{k.lower(): v for k, v in dev.items() if v not in ("", [])}` — the
attribute snapshot built from a channel descriptor. -/
def buildSnapshot (dev : List (String × Value)) : List (String × Value) :=
  (dev.filter fun p => !(pyEq p.2 (.vStr "") || pyEq p.2 (.vList []))).map
    fun p => (pyLower p.1, p.2)

/-- The discovery-identity dict built for a parentless descriptor:
name `"{TYPE}_{ADDRESS}"`, identifiers `[ADDRESS]`, manufacturer `"eQ-3"`,
model `TYPE`, plus `sw_version` when `FIRMWARE` is present and truthy. -/
def buildIdentity (dev : List (String × Value)) (address devtype : String) :
    List (String × Value) :=
  let base : List (String × Value) :=
    [("name", .vStr (devtype ++ "_" ++ address)),
     ("identifiers", .vList [.vStr address]),
     ("manufacturer", .vStr "eQ-3"),
     ("model", .vStr devtype)]
  match getStr dev "FIRMWARE" with
  | some fw => if fw ≠ "" then base ++ [("sw_version", .vStr fw)] else base
  | none => base

/-- The MQTT discovery config for a binary_sensor channel. -/
def binarySensorConfig (pident : List (String × Value)) (p i pt t a : String) :
    List (String × Value) :=
  [("device", .vDict pident),
   ("availability_topic", .vStr (Topic.render (.availability p))),
   ("json_attributes_topic", .vStr (Topic.render (.attributes p i))),
   ("name", .vStr (pt ++ " " ++ t ++ " " ++ a)),
   ("state_topic", .vStr (Topic.render (.state p i))),
   ("unique_id", .vStr ("Homematic-" ++ a))]

/-- The MQTT discovery config for a sensor channel (the binary_sensor
fields plus a unit of measurement when the type has one). -/
def sensorConfig (pident : List (String × Value)) (p i pt t a : String) :
    List (String × Value) :=
  match SENSOR_UNITS t with
  | some u => binarySensorConfig pident p i pt t a ++ [("unit_of_measurement", .vStr u)]
  | none => binarySensorConfig pident p i pt t a

/-- The device_automation discovery config published first (short press). -/
def triggerConfigShort (pident : List (String × Value)) (p i : String) :
    List (String × Value) :=
  [("device", .vDict pident),
   ("automation_type", .vStr "trigger"),
   ("subtype", .vStr ("button_" ++ i)),
   ("topic", .vStr (Topic.render (.press p i "PRESS_SHORT"))),
   ("type", .vStr "button_short_press")]

/-- The device_automation discovery config published second: the same dict
with `topic` and `type` overwritten in place (key order unchanged). -/
def triggerConfigLong (pident : List (String × Value)) (p i : String) :
    List (String × Value) :=
  [("device", .vDict pident),
   ("automation_type", .vStr "trigger"),
   ("subtype", .vStr ("button_" ++ i)),
   ("topic", .vStr (Topic.render (.press p i "PRESS_LONG"))),
   ("type", .vStr "button_long_press")]

/-- The MQTT discovery config for a cover channel; the position topic is
remapped through `HM_COVER_CHANNEL_MAP` when the index has an entry. -/
def coverConfig (pident : List (String × Value)) (p i pt t a : String) (idx : Value) :
    List (String × Value) :=
  let posChannel :=
    match HM_COVER_CHANNEL_MAP idx with
    | some n => pyStr n
    | none => i
  [("device", .vDict pident),
   ("availability_topic", .vStr (Topic.render (.availability p))),
   ("command_topic", .vStr (Topic.render (.action p i))),
   ("device_class", .vStr "shutter"),
   ("json_attributes_topic", .vStr (Topic.render (.attributes p i))),
   ("name", .vStr (pt ++ " " ++ t ++ " " ++ a)),
   ("payload_close", .vStr "move_down"),
   ("payload_open", .vStr "move_up"),
   ("payload_stop", .vStr "stop"),
   ("position_closed", .vNum 0),
   ("position_open", .vNum 100),
   ("position_topic", .vStr (Topic.render (.state p posChannel))),
   ("set_position_template", .vStr "\x7b\x7b position / 100 \x7d\x7d"),
   ("set_position_topic", .vStr (Topic.render (.setLevel p i))),
   ("unique_id", .vStr ("Homematic-" ++ a))]

/-- The MQTT discovery config for a switch channel. -/
def switchConfig (pident : List (String × Value)) (p i pt t a : String) :
    List (String × Value) :=
  [("device", .vDict pident),
   ("availability_topic", .vStr (Topic.render (.availability p))),
   ("command_topic", .vStr (Topic.render (.action p i))),
   ("json_attributes_topic", .vStr (Topic.render (.attributes p i))),
   ("name", .vStr (pt ++ " " ++ t ++ " " ++ a)),
   ("payload_off", .vStr "off"),
   ("payload_on", .vStr "on"),
   ("state_off", .vStr "OFF"),
   ("state_on", .vStr "ON"),
   ("state_topic", .vStr (Topic.render (.state p i))),
   ("unique_id", .vStr ("Homematic-" ++ a))]

/-- One iteration of the loop body of `_new_devices` for descriptor `dev`:
the attribute snapshot is stored as soon as ADDRESS and TYPE are truthy;
a parentless descriptor then (re)builds the identity record; a descriptor
whose parent identity is known and whose INDEX is present publishes the
kind-specific discovery documents and subscriptions; otherwise only
"Parent not found!" is logged. -/
def processDescriptor (st : BridgeState) (dev : List (String × Value)) :
    BridgeState × List Effect :=
  match getStr dev "ADDRESS", getStr dev "TYPE" with
  | some address, some devtype =>
    if address ≠ "" ∧ devtype ≠ "" then
      let st1 : BridgeState :=
        ⟨st.haDevices, dictSet st.haAttributes address (buildSnapshot dev)⟩
      match getStr dev "PARENT" with
      | none =>
        (⟨dictSet st1.haDevices address (buildIdentity dev address devtype),
          st1.haAttributes⟩, [])
      | some parent =>
        if parent = "" then
          (⟨dictSet st1.haDevices address (buildIdentity dev address devtype),
            st1.haAttributes⟩, [])
        else
          match dictGet st1.haDevices parent, dictGet dev "INDEX" with
          | some pident, some idx =>
            let pt := fmtField dev "PARENT_TYPE"
            let i := pyStr idx
            let nodeId := pt ++ "_" ++ parent
            let objectId := i ++ "-" ++ devtype
            if devtype ∈ BINARY_SENSOR_TYPES then
              (st1, [.publish (.discovery "binary_sensor" nodeId objectId)
                       (.mDict (binarySensorConfig pident parent i pt devtype address)) true])
            else if devtype ∈ SENSOR_TYPES then
              (st1, [.publish (.discovery "sensor" nodeId objectId)
                       (.mDict (sensorConfig pident parent i pt devtype address)) true])
            else if devtype ∈ DEVICE_TRIGGER_TYPES then
              (st1, [.publish (.discovery "device_automation" nodeId (objectId ++ "-short"))
                       (.mDict (triggerConfigShort pident parent i)) true,
                     .publish (.discovery "device_automation" nodeId (objectId ++ "-long"))
                       (.mDict (triggerConfigLong pident parent i)) true])
            else if devtype ∈ COVER_TYPES then
              (st1, [.subscribe (.action parent i),
                     .subscribe (.setLevel parent i),
                     .publish (.discovery "cover" nodeId objectId)
                       (.mDict (coverConfig pident parent i pt devtype address idx)) true])
            else if devtype ∈ SWITCH_TYPES then
              (st1, [.subscribe (.action parent i),
                     .publish (.discovery "switch" nodeId objectId)
                       (.mDict (switchConfig pident parent i pt devtype address)) true])
            else
              (st1, [.logWarning ("Unhandled channel: " ++ devtype)])
          | _, _ => (st1, [.logError "Parent not found!"])
    else (st, [])
  | _, _ => (st, [])

/-- `_new_devices`: process a discovery batch in order, accumulating
registry updates and effects. -/
def newDevices (st : BridgeState) (devs : List (List (String × Value))) :
    BridgeState × List Effect :=
  devs.foldl
    (fun acc dev =>
      let r := processDescriptor acc.1 dev
      (r.1, acc.2 ++ r.2))
    (st, [])

/-- Python exceptions the event path can raise. -/
inductive PyExc where
  | valueError
  | keyError
  | typeError
  | assertionError
deriving DecidableEq

/-- Numeric coercion used by arithmetic on event values (`True` counts
as 1); `none` marks the operand types on which Python raises `TypeError`
(or, for string repetition under `value * 100`, makes `round` raise). -/
def toQNum : Value → Option ℚ
  | .vBool b => some (if b then 1 else 0)
  | .vNum q => some q
  | _ => none

/-- `sum(attrs[flag] for flag in MAINTENANCE_FLAGS if flag in attrs)`:
the sum over the flags present in the snapshot; an error when any present
flag holds a non-numeric value (the result is order-independent, so the
arbitrary iteration order of the Python set does not matter). -/
def flagSum : List String → List (String × Value) → Except PyExc ℚ
  | [], _ => .ok 0
  | f :: rest, attrs =>
    match dictGet attrs f with
    | none => flagSum rest attrs
    | some v =>
      match toQNum v with
      | none => .error .typeError
      | some q =>
        match flagSum rest attrs with
        | .ok s => .ok (q + s)
        | .error e => .error e

/-- `_publish` applied to a raw Python value: lists reach the final
`assert isinstance(message, bytes)` unconverted and raise. -/
def toMsg : Value → Except PyExc Msg
  | .vBool b => .ok (.mBool b)
  | .vNum q => .ok (.mNum q)
  | .vStr s => .ok (.mStr s)
  | .vDict d => .ok (.mDict d)
  | .vList _ => .error .assertionError

/-- Step 4 of `_event_callback`: re-read the (updated) snapshot's type tag
and dispatch on (type, field).  The two `MAINTENANCE` tests are written as
independent `if`s in the source, so an UNREACH notification performs both;
the remaining arms are an `elif` chain.  A non-string type tag falls
through every `==` test and raises `AttributeError`-like at `endswith`;
it is modelled as `typeError` (unreachable from stored snapshots). -/
def eventDecode (attrs : List (String × Value)) (parent index key : String)
    (value : Value) : List Effect × Option PyExc :=
  match dictGet attrs "type" with
  | none => ([], some .keyError)
  | some (.vStr t) =>
    if t = "MAINTENANCE" then
      let e1 : List Effect :=
        if key = "UNREACH" then
          [.publish (.availability parent)
            (.mStr (if pyTruthy value then "offline" else "online")) true]
        else []
      if pyLower key ∈ MAINTENANCE_FLAGS then
        match flagSum MAINTENANCE_FLAGS attrs with
        | .ok s => (e1 ++ [.publish (.state parent index) (.mBool (decide (s ≠ 0))) true], none)
        | .error e => (e1, some e)
      else (e1, none)
    else if t = "KEY_TRANSCEIVER" ∧ (key = "PRESS_SHORT" ∨ key = "PRESS_LONG") then
      match value with
      | .vBool b => ([.publish (.press parent index key) (.mBool b) false], none)
      | _ => ([], some .assertionError)
    else if t = "SHUTTER_TRANSMITTER" ∧ key = "LEVEL" then
      match toQNum value with
      | some q => ([.publish (.state parent index) (.mNum ((pyRound (q * 100) : ℤ) : ℚ)) true], none)
      | none => ([], some .typeError)
    else if t = "SHUTTER_VIRTUAL_RECEIVER" ∧ key = "LEVEL" then
      match toQNum value with
      | some q => ([.publish (.state parent index) (.mNum ((pyRound (q * 100) : ℤ) : ℚ)) true], none)
      | none => ([], some .typeError)
    else if pyEndsWith t "_WEEK_PROFILE" ∧ key = "WEEK_PROGRAM_CHANNEL_LOCKS" then
      match toMsg value with
      | .ok m => ([.publish (.state parent index) m true], none)
      | .error e => ([], some e)
    else if t = "ROTARY_HANDLE_TRANSCEIVER" ∧ key = "STATE" then
      ([.publish (.state parent index) (.mStr (ROTARY_HANDLE_VALUES value)) true], none)
    else if t = "SMOKE_DETECTOR" ∧ key = "SMOKE_DETECTOR_ALARM_STATUS" then
      ([.publish (.state parent index) (.mStr (SMOKE_DETECTOR_VALUES value)) true], none)
    else if t = "SWITCH_VIRTUAL_RECEIVER" ∧ key = "STATE" then
      match toMsg value with
      | .ok m => ([.publish (.state parent index) m true], none)
      | .error e => ([], some e)
    else ([], none)
  | some _ => ([], some .typeError)

/-- Outcome of one `_event_callback` invocation: the registry afterwards,
the effects performed before any exception, and the exception if one was
raised (mutations and publishes that happened before the raise persist,
as in Python). -/
structure EvResult where
  state : BridgeState
  effects : List Effect
  exc : Option PyExc

/-- Step 3 of `_event_callback`: compare the stored field value with the
incoming one under Python `==`; on a difference (or an absent field) write
it.  Returns (changed, updated snapshot). -/
def applyField (attrs : List (String × Value)) (lc : String) (value : Value) :
    Bool × List (String × Value) :=
  match dictGet attrs lc with
  | none => (true, dictSet attrs lc value)
  | some ov => if pyEq ov value then (false, attrs) else (true, dictSet attrs lc value)

/-- `_event_callback(interface_id, address, value_key, value)`. -/
def eventCallback (st : BridgeState) (interfaceId address key : String)
    (value : Value) : EvResult :=
  if interfaceId = expectedInterfaceId then
    match dictGet st.haAttributes address with
    | some attrs =>
      if attrs.isEmpty then ⟨st, [.logError ("Invalid address: " ++ address)], none⟩
      else
        match pySplit1 address with
        | none => ⟨st, [], some .valueError⟩
        | some pi =>
          let r := applyField attrs (pyLower key) value
          let st2 : BridgeState :=
            if r.1 then ⟨st.haDevices, dictSet st.haAttributes address r.2⟩ else st
          let attrEffects : List Effect :=
            if r.1 then [.publish (.attributes pi.1 pi.2) (.mDict r.2) true] else []
          let d := eventDecode r.2 pi.1 pi.2 key value
          ⟨st2, attrEffects ++ d.1, d.2⟩
    | none => ⟨st, [.logError ("Invalid address: " ++ address)], none⟩
  else ⟨st, [.logError ("Invalid interface ID: " ++ interfaceId)], none⟩

/-- One channel of a pyhomematic device (`hmdevice.CHANNELS[channel]`),
carrying its channel-type tag. -/
structure HmChannel where
  TYPE : String
deriving DecidableEq

/-- One pyhomematic device as seen by `_process_packet`: the
`isinstance(…, GenericBlind)` / `isinstance(…, GenericSwitch)` capability
tags and the channel table keyed by integer index. -/
structure HmDevice where
  isBlind : Bool
  isSwitch : Bool
  channels : List (Int × HmChannel)

/-- `hmdevice.CHANNELS.get(channel)`. -/
def chanGet (cs : List (Int × HmChannel)) (k : Int) : Option HmChannel :=
  match cs.find? (fun p => p.1 = k) with
  | some p => some p.2
  | none => none

/-- `homematic.devices["default"].get(address)`. -/
def devGet (tbl : List (String × HmDevice)) (a : String) : Option HmDevice :=
  match tbl.find? (fun p => p.1 = a) with
  | some p => some p.2
  | none => none

/-- Device actions invoked through the controller connection. -/
inductive HmAction where
  | moveUp (channel : Int)
  | moveDown (channel : Int)
  | stop (channel : Int)
  | setLevel (level : ℚ) (channel : Int)
  | turnOn (channel : Int)
  | turnOff (channel : Int)

/-- Observable outcome of one inbound MQTT message: device-action
invocations (with the target device address) and log lines. -/
inductive CmdEffect where
  | invoke (address : String) (act : HmAction)
  | logError (msg : String)

/-- `getattr(hmdevice, data)(channel)` for a validated cover action name. -/
def coverAction (data : String) (ch : Int) : HmAction :=
  if data = "move_up" then .moveUp ch
  else if data = "move_down" then .moveDown ch
  else .stop ch

/-- `_process_packet(message, homematic)`: parse the topic into exactly
four segments, check the namespace, parse the channel index, decode the
payload (`none` models undecodable UTF-8), resolve device and channel,
then dispatch on (capability, channel type, action name). -/
def processPacket (tbl : List (String × HmDevice)) (topic : String)
    (payload : Option String) : List CmdEffect :=
  match pySplit topic '/' with
  | [pfx, address, chanStr, name] =>
    if pfx ≠ "Homematic" then [.logError ("Invalid prefix: " ++ pfx)]
    else
      match pyInt chanStr with
      | none => [.logError ("Invalid channel: " ++ chanStr)]
      | some channel =>
        match payload with
        | none => [.logError "Invalid payload"]
        | some data =>
          match devGet tbl address with
          | none => [.logError ("Unable to find Homematic device " ++ address)]
          | some hmdevice =>
            match chanGet hmdevice.channels channel with
            | none => [.logError ("Invalid channel: " ++ chanStr)]
            | some hmchannel =>
              if hmdevice.isBlind ∧ hmchannel.TYPE ∈ COVER_TYPES then
                if name = "action" then
                  if data = "move_up" ∨ data = "move_down" ∨ data = "stop" then
                    [.invoke address (coverAction data channel)]
                  else [.logError ("Invalid action: " ++ data)]
                else if name = "set_level" then
                  match pyFloat data with
                  | none => [.logError ("Invalid level: " ++ data)]
                  | some level =>
                    if 0 ≤ level ∧ level ≤ 1 then
                      [.invoke address (.setLevel level channel)]
                    else [.logError "Invalid level"]
                else []
              else if hmdevice.isSwitch ∧ hmchannel.TYPE ∈ SWITCH_TYPES then
                if name = "action" then
                  if data = "on" ∨ data = "off" then
                    [.invoke address (if data = "on" then .turnOn channel else .turnOff channel)]
                  else [.logError ("Invalid action: " ++ data)]
                else []
              else []
  | _ => [.logError ("Invalid topic: " ++ topic)]

/-- Recognizer for a publish effect. -/
def Effect.isPublish : Effect → Bool
  | .publish _ _ _ => true
  | _ => false

/-- Recognizer for a subscribe effect. -/
def Effect.isSubscribe : Effect → Bool
  | .subscribe _ => true
  | _ => false

/-- Recognizer for a publish to some channel's attributes topic. -/
def Effect.isAttributesPublish : Effect → Bool
  | .publish (.attributes _ _) _ _ => true
  | _ => false

/-- Recognizer for a device-action invocation. -/
def CmdEffect.isInvoke : CmdEffect → Bool
  | .invoke _ _ => true
  | _ => false

/-- The maintenance-flag value stored for `f`, read as a boolean
(absent or non-boolean reads as false; see `flagsAreBoolOver`). -/
def flagIsSet (attrs : List (String × Value)) (f : String) : Bool :=
  match dictGet attrs f with
  | some (.vBool b) => b
  | _ => false

/-- Every flag of `fs` present in the snapshot holds a boolean. -/
def flagsAreBoolOver (fs : List String) (attrs : List (String × Value)) : Bool :=
  fs.all fun f =>
    match dictGet attrs f with
    | some (.vBool _) => true
    | none => true
    | some _ => false

/-- The boolean OR over all maintenance-flag fields present in the
snapshot — the spec's description of the published maintenance state. -/
def maintenanceOr (attrs : List (String × Value)) : Bool :=
  MAINTENANCE_FLAGS.any fun f => flagIsSet attrs f

/-!
Theorems.  Sanity checks of the Python-primitive models first, then the
dictionary lemmas and shared facts about the event path, then one theorem
per specification claim (C1–C10).
-/

example : pyEq (.vBool true) (.vNum 1) = true := by decide
example : pyEq (.vStr "a") (.vStr "b") = false := by decide
example : pyTruthy (.vStr "") = false := by decide
example : pyFloat "x1" = none := by decide
example : pyInt "4" = some 4 := by decide
example : pyInt "4a" = none := by decide
example : pySplit1 "ABC0000000" = none := by decide
example : pySplit1 "DEV:1:2" = some ("DEV", "1:2") := by decide
example : pyLower "UNREACH" = "unreach" := by decide
example : pyEndsWith "BLIND_WEEK_PROFILE" "_WEEK_PROFILE" = true := by decide
example : pySplit "Homematic/AAA/4/set_level" '/' = ["Homematic", "AAA", "4", "set_level"] := by
  decide
example : pyRound (1 / 2 : ℚ) = 0 := by norm_num [pyRound]
example : numToStr 37 = "37" := by decide
example : ROTARY_HANDLE_VALUES (.vNum 1) = "tilted" := by decide
example : ROTARY_HANDLE_VALUES (.vNum 9) = "unknown" := by decide

theorem dictGet_dictSet_self {α : Type} (d : List (String × α)) (k : String) (v : α) :
    dictGet (dictSet d k v) k = some v := by
  induction d with
  | nil => simp [dictGet, dictSet]
  | cons p rest ih =>
    by_cases h : p.1 = k
    · simp [dictGet, dictSet, h]
    · simp [dictGet, dictSet, h, ih]

theorem dictGet_dictSet_ne {α : Type} (d : List (String × α)) (k k2 : String) (v : α)
    (h : k2 ≠ k) : dictGet (dictSet d k v) k2 = dictGet d k2 := by
  induction d with
  | nil => simp [dictGet, dictSet, Ne.symm h]
  | cons p rest ih =>
    by_cases hp : p.1 = k
    · simp [dictGet, dictSet, hp, Ne.symm h]
    · by_cases hp2 : p.1 = k2
      · simp [dictGet, dictSet, hp, hp2, h]
      · simp [dictGet, dictSet, hp, hp2, ih]

/-- The semantic-decode step never publishes to an attributes topic; its
publishes go to availability, state or press topics only. -/
theorem eventDecode_no_attributesPublish (attrs : List (String × Value))
    (p i k : String) (v : Value) :
    ((eventDecode attrs p i k v).1.all fun e => !e.isAttributesPublish) = true := by
  unfold eventDecode
  repeat' split <;> try rfl

/-- Writing one field of a snapshot leaves every other field unchanged. -/
theorem applyField_preserves_other (attrs : List (String × Value)) (lc : String)
    (value : Value) (k2 : String) (h : k2 ≠ lc) :
    dictGet (applyField attrs lc value).2 k2 = dictGet attrs k2 := by
  cases hov : dictGet attrs lc with
  | none => simp [applyField, hov, dictGet_dictSet_ne _ _ _ _ h]
  | some ov =>
    simp only [applyField, hov]
    split <;> simp [dictGet_dictSet_ne _ _ _ _ h]

/-- When every present maintenance flag is a boolean, the Python
`sum(...)` succeeds, is non-negative, and is nonzero exactly when some
flag is set — i.e. `bool(sum)` is the boolean OR of the flags. -/
theorem flagSum_bool (fs : List String) (attrs : List (String × Value))
    (hb : flagsAreBoolOver fs attrs = true) :
    ∃ s, flagSum fs attrs = .ok s ∧ 0 ≤ s ∧
      (s ≠ 0 ↔ (fs.any fun f => flagIsSet attrs f) = true) := by
  induction fs with
  | nil => exact ⟨0, rfl, le_refl 0, by simp⟩
  | cons f rest ih =>
    have hb2 : flagsAreBoolOver rest attrs = true := by
      have := hb
      simp [flagsAreBoolOver, List.all_cons] at this ⊢
      exact this.2
    obtain ⟨s, hs, hpos, hiff⟩ := ih hb2
    have hbf := hb
    simp only [flagsAreBoolOver, List.all_cons, Bool.and_eq_true] at hbf
    cases hov : dictGet attrs f with
    | none =>
      refine ⟨s, ?_, hpos, ?_⟩
      · simp [flagSum, hov, hs]
      · simpa [List.any_cons, flagIsSet, hov] using hiff
    | some w =>
      cases w with
      | vBool b =>
        refine ⟨(if b then (1 : ℚ) else 0) + s, ?_, ?_, ?_⟩
        · simp [flagSum, hov, toQNum, hs]
        · cases b <;> simp <;> linarith
        · cases b with
          | true =>
            simp [List.any_cons, flagIsSet, hov]
            intro h
            linarith
          | false =>
            simpa [List.any_cons, flagIsSet, hov] using hiff
      | vNum q => rw [hov] at hbf; simp at hbf
      | vStr s2 => rw [hov] at hbf; simp at hbf
      | vList l => rw [hov] at hbf; simp at hbf
      | vDict d => rw [hov] at hbf; simp at hbf

/-- C1 (counterexample): processing a channel descriptor whose PARENT has
no stored Discovery Identity does mutate state — the attribute snapshot
for the channel is written before the parent check, so afterwards the
registry holds a snapshot for a channel whose parent identity is missing,
contradicting the claimed invariant. -/
theorem C1_counterexample :
    (dictGet (newDevices ⟨[], []⟩
        [[("ADDRESS", Value.vStr "NEQ0000001:1"), ("TYPE", Value.vStr "MAINTENANCE"),
          ("PARENT", Value.vStr "NEQ0000001"), ("PARENT_TYPE", Value.vStr "HmIP-BROLL"),
          ("INDEX", Value.vStr "1")]]).1.haDevices "NEQ0000001").isNone = true ∧
    (dictGet (newDevices ⟨[], []⟩
        [[("ADDRESS", Value.vStr "NEQ0000001:1"), ("TYPE", Value.vStr "MAINTENANCE"),
          ("PARENT", Value.vStr "NEQ0000001"), ("PARENT_TYPE", Value.vStr "HmIP-BROLL"),
          ("INDEX", Value.vStr "1")]]).1.haAttributes "NEQ0000001:1").isSome = true := by
  decide

/-- C1 (amended): a descriptor whose parent identity is missing is
rejected for discovery — "Parent not found!" is logged, no identity is
written and nothing is published or subscribed — but its Attribute
Snapshot IS stored in the registry before the parent check. -/
theorem C1_amended_orphan_descriptor (st : BridgeState) (dev : List (String × Value))
    (address devtype parent : String)
    (hA : getStr dev "ADDRESS" = some address) (hA0 : address ≠ "")
    (hT : getStr dev "TYPE" = some devtype) (hT0 : devtype ≠ "")
    (hP : getStr dev "PARENT" = some parent) (hP0 : parent ≠ "")
    (hMiss : dictGet st.haDevices parent = none) :
    processDescriptor st dev =
      (⟨st.haDevices, dictSet st.haAttributes address (buildSnapshot dev)⟩,
       [.logError "Parent not found!"]) := by
  simp [processDescriptor, hA, hT, hA0, hT0, hP, hP0, hMiss]

/-- C1 (witness): the amended statement evaluated on a concrete orphan
descriptor in the empty registry. -/
theorem C1_amended_orphan_descriptor_witness :
    processDescriptor ⟨[], []⟩
        [("ADDRESS", Value.vStr "NEQ0000001:1"), ("TYPE", Value.vStr "MAINTENANCE"),
         ("PARENT", Value.vStr "NEQ0000001"), ("INDEX", Value.vStr "1")]
      = (⟨[], dictSet [] "NEQ0000001:1" (buildSnapshot
           [("ADDRESS", Value.vStr "NEQ0000001:1"), ("TYPE", Value.vStr "MAINTENANCE"),
            ("PARENT", Value.vStr "NEQ0000001"), ("INDEX", Value.vStr "1")])⟩,
         [.logError "Parent not found!"]) :=
  C1_amended_orphan_descriptor ⟨[], []⟩ _ "NEQ0000001:1" "MAINTENANCE" "NEQ0000001"
    rfl (by decide) rfl (by decide) rfl (by decide) rfl

/-- C2: for an accepted notification (matching session id, stored
non-empty snapshot, channel address with a colon): if the stored field
value equals the new value under Python `==`, the registry is unchanged
and no attributes-topic publish occurs; if the field differs or is
absent, the field is written and the full updated snapshot is published
to the channel's attributes topic, retained. -/
theorem C2_attribute_diff (st : BridgeState) (address key : String) (value : Value)
    (attrs : List (String × Value)) (parent index : String)
    (hA : dictGet st.haAttributes address = some attrs)
    (hne : attrs.isEmpty = false)
    (hsplit : pySplit1 address = some (parent, index)) :
    (∀ ov, dictGet attrs (pyLower key) = some ov → pyEq ov value = true →
      (eventCallback st expectedInterfaceId address key value).state = st ∧
      ((eventCallback st expectedInterfaceId address key value).effects.all
        fun e => !e.isAttributesPublish) = true) ∧
    ((∀ ov, dictGet attrs (pyLower key) = some ov → pyEq ov value = false) →
      dictGet (eventCallback st expectedInterfaceId address key value).state.haAttributes address
          = some (dictSet attrs (pyLower key) value) ∧
      Effect.publish (.attributes parent index) (.mDict (dictSet attrs (pyLower key) value)) true
        ∈ (eventCallback st expectedInterfaceId address key value).effects) := by
  constructor
  · intro ov hov hpq
    have happ : applyField attrs (pyLower key) value = (false, attrs) := by
      simp [applyField, hov, hpq]
    simp [eventCallback, hA, hne, hsplit, happ, eventDecode_no_attributesPublish]
  · intro hdiff
    have happ : applyField attrs (pyLower key) value
        = (true, dictSet attrs (pyLower key) value) := by
      cases hov : dictGet attrs (pyLower key) with
      | none => simp [applyField, hov]
      | some ov => simp [applyField, hov, hdiff ov hov]
    constructor
    · simp [eventCallback, hA, hne, hsplit, happ, dictGet_dictSet_self]
    · simp [eventCallback, hA, hne, hsplit, happ]

/-- C2 (witness): a fresh field on a known channel is written and the
updated snapshot is published to the attributes topic. -/
theorem C2_attribute_diff_witness :
    dictGet (eventCallback ⟨[], [("DEV:1", [("type", Value.vStr "X")])]⟩ expectedInterfaceId
        "DEV:1" "FOO" (.vStr "bar")).state.haAttributes "DEV:1"
      = some (dictSet [("type", Value.vStr "X")] (pyLower "FOO") (.vStr "bar")) ∧
    Effect.publish (.attributes "DEV" "1")
        (.mDict (dictSet [("type", Value.vStr "X")] (pyLower "FOO") (.vStr "bar"))) true
      ∈ (eventCallback ⟨[], [("DEV:1", [("type", Value.vStr "X")])]⟩ expectedInterfaceId
          "DEV:1" "FOO" (.vStr "bar")).effects :=
  (C2_attribute_diff ⟨[], [("DEV:1", [("type", Value.vStr "X")])]⟩ "DEV:1" "FOO"
      (.vStr "bar") [("type", Value.vStr "X")] "DEV" "1" rfl rfl rfl).2
    (fun _ov hov => nomatch hov)

/-- C3 (counterexample): a maintenance UNREACH notification performs BOTH
the availability publish and the maintenance-flag state publish — the two
maintenance checks are independent `if`s, so "at most one of the two" is
false at this input. -/
theorem C3_counterexample :
    (eventCallback ⟨[], [("DEV:0", [("type", Value.vStr "MAINTENANCE"),
        ("unreach", Value.vBool false)])]⟩ expectedInterfaceId "DEV:0" "UNREACH"
        (.vBool true)).effects
      = [.publish (.attributes "DEV" "0")
           (.mDict [("type", Value.vStr "MAINTENANCE"), ("unreach", Value.vBool true)]) true,
         .publish (.availability "DEV") (.mStr "offline") true,
         .publish (.state "DEV" "0") (.mBool true) true] := by
  norm_num +decide [eventCallback, eventDecode, applyField, flagSum, toQNum, pySplit1,
    dictGet, dictSet, pyLower, pyEq, pyTruthy, MAINTENANCE_FLAGS, expectedInterfaceId]

/-- C3 (amended): the dispatch follows the fixed table; outside the
maintenance channel the `elif` chain performs at most one publish, but on
a maintenance channel an UNREACH notification triggers both rows: the
availability publish and the maintenance-flag state publish. -/
theorem C3_amended_dispatch (attrs : List (String × Value)) (p i k : String) (v : Value) :
    (∀ t, dictGet attrs "type" = some (.vStr t) → t ≠ "MAINTENANCE" →
      (eventDecode attrs p i k v).1.length ≤ 1) ∧
    (∀ s, dictGet attrs "type" = some (.vStr "MAINTENANCE") → k = "UNREACH" →
      flagSum MAINTENANCE_FLAGS attrs = .ok s →
      (eventDecode attrs p i k v).1
        = [.publish (.availability p) (.mStr (if pyTruthy v then "offline" else "online")) true,
           .publish (.state p i) (.mBool (decide (s ≠ 0))) true]) := by
  constructor
  · intro t ht hmt
    simp only [eventDecode, ht]
    repeat' split <;> simp_all
  · intro s ht hk hsum
    subst hk
    simp +decide [eventDecode, ht, hsum]

/-- C3 (witness): the amended statement evaluated at a non-maintenance
notification (one publish) and at a concrete maintenance UNREACH
notification (both publishes). -/
theorem C3_amended_dispatch_witness :
    (eventDecode [("type", Value.vStr "SWITCH_VIRTUAL_RECEIVER")] "DEV" "4" "STATE"
        (.vBool true)).1.length ≤ 1 ∧
    (eventDecode [("type", Value.vStr "MAINTENANCE"), ("unreach", Value.vBool true)]
        "DEV" "0" "UNREACH" (.vBool true)).1
      = [.publish (.availability "DEV") (.mStr "offline") true,
         .publish (.state "DEV" "0") (.mBool true) true] := by
  constructor
  · exact (C3_amended_dispatch _ "DEV" "4" "STATE" _).1 "SWITCH_VIRTUAL_RECEIVER" rfl
      (by decide)
  · have h := (C3_amended_dispatch
      [("type", Value.vStr "MAINTENANCE"), ("unreach", Value.vBool true)]
      "DEV" "0" "UNREACH" (.vBool true)).2 1 rfl rfl
      (by norm_num +decide [flagSum, toQNum, dictGet, MAINTENANCE_FLAGS])
    rw [h]
    norm_num [pyTruthy]

/-- C4 (counterexample): identity upsert is not first-writer-wins — after
a second parentless descriptor for the same address with a different
FIRMWARE, the stored identity record carries the second firmware, so the
later descriptor did not leave the record unchanged. -/
theorem C4_counterexample :
    ((dictGet (newDevices ⟨[], []⟩
        [[("ADDRESS", Value.vStr "AAA"), ("TYPE", Value.vStr "HmIP-BROLL"),
          ("FIRMWARE", Value.vStr "1.0")]]).1.haDevices "AAA").map
      fun ident => getStr ident "sw_version") = some (some "1.0") ∧
    ((dictGet (newDevices ⟨[], []⟩
        [[("ADDRESS", Value.vStr "AAA"), ("TYPE", Value.vStr "HmIP-BROLL"),
          ("FIRMWARE", Value.vStr "1.0")],
         [("ADDRESS", Value.vStr "AAA"), ("TYPE", Value.vStr "HmIP-BROLL"),
          ("FIRMWARE", Value.vStr "2.0")]]).1.haDevices "AAA").map
      fun ident => getStr ident "sw_version") = some (some "2.0") := by
  decide

/-- C4 (amended): processing a parentless descriptor rebuilds the
identity record from the descriptor and overwrites any stored record for
that address (last writer wins; replaying an identical descriptor
recreates an equal record). -/
theorem C4_amended_identity_overwrite (st : BridgeState) (dev : List (String × Value))
    (address devtype : String)
    (hA : getStr dev "ADDRESS" = some address) (hA0 : address ≠ "")
    (hT : getStr dev "TYPE" = some devtype) (hT0 : devtype ≠ "")
    (hP : getStr dev "PARENT" = none ∨ getStr dev "PARENT" = some "") :
    (processDescriptor st dev).1.haDevices
      = dictSet st.haDevices address (buildIdentity dev address devtype) := by
  rcases hP with h | h <;> simp [processDescriptor, hA, hT, hA0, hT0, h]

/-- C4 (witness): the amended statement evaluated on a concrete
parentless descriptor overwriting an existing identity record. -/
theorem C4_amended_identity_overwrite_witness :
    (processDescriptor ⟨[("AAA", [("name", Value.vStr "OLD")])], []⟩
        [("ADDRESS", Value.vStr "AAA"), ("TYPE", Value.vStr "HmIP-BROLL"),
         ("FIRMWARE", Value.vStr "2.0")]).1.haDevices
      = dictSet [("AAA", [("name", Value.vStr "OLD")])] "AAA"
          (buildIdentity
            [("ADDRESS", Value.vStr "AAA"), ("TYPE", Value.vStr "HmIP-BROLL"),
             ("FIRMWARE", Value.vStr "2.0")] "AAA" "HmIP-BROLL") :=
  C4_amended_identity_overwrite _ _ "AAA" "HmIP-BROLL" rfl (by decide) rfl (by decide)
    (Or.inl rfl)

/-- C5: a descriptor whose parent identity is absent produces no MQTT
publish and no subscription — only the "Parent not found!" log line. -/
theorem C5_orphan_no_publish_no_subscribe (st : BridgeState) (dev : List (String × Value))
    (address devtype parent : String)
    (hA : getStr dev "ADDRESS" = some address) (hA0 : address ≠ "")
    (hT : getStr dev "TYPE" = some devtype) (hT0 : devtype ≠ "")
    (hP : getStr dev "PARENT" = some parent) (hP0 : parent ≠ "")
    (hMiss : dictGet st.haDevices parent = none) :
    ((processDescriptor st dev).2.all
      fun e => !e.isPublish && !e.isSubscribe) = true := by
  simp [processDescriptor, hA, hT, hA0, hT0, hP, hP0, hMiss, Effect.isPublish,
    Effect.isSubscribe]

/-- C5 (witness): the statement evaluated on a concrete orphan descriptor. -/
theorem C5_orphan_no_publish_no_subscribe_witness :
    ((processDescriptor ⟨[], []⟩
        [("ADDRESS", Value.vStr "NEQ0000001:1"), ("TYPE", Value.vStr "MAINTENANCE"),
         ("PARENT", Value.vStr "NEQ0000001"), ("INDEX", Value.vStr "1")]).2.all
      fun e => !e.isPublish && !e.isSubscribe) = true :=
  C5_orphan_no_publish_no_subscribe ⟨[], []⟩ _ "NEQ0000001:1" "MAINTENANCE" "NEQ0000001"
    rfl (by decide) rfl (by decide) rfl (by decide) rfl

/-- C6: for an accepted notification on a maintenance channel whose field
is a maintenance flag carrying a boolean, the state value published is
the boolean OR over all maintenance-flag fields present in the snapshot
after applying the update. -/
theorem C6_maintenance_or_state (st : BridgeState) (address key : String) (b : Bool)
    (attrs : List (String × Value)) (parent index : String)
    (hA : dictGet st.haAttributes address = some attrs)
    (hne : attrs.isEmpty = false)
    (hsplit : pySplit1 address = some (parent, index))
    (htype : dictGet attrs "type" = some (.vStr "MAINTENANCE"))
    (hflag : pyLower key ∈ MAINTENANCE_FLAGS)
    (hbool : flagsAreBoolOver MAINTENANCE_FLAGS
      (applyField attrs (pyLower key) (.vBool b)).2 = true) :
    Effect.publish (.state parent index)
        (.mBool (maintenanceOr (applyField attrs (pyLower key) (.vBool b)).2)) true
      ∈ (eventCallback st expectedInterfaceId address key (.vBool b)).effects := by
  have hnottype : "type" ≠ pyLower key := by
    intro he
    rw [← he] at hflag
    revert hflag
    decide
  have hty2 : dictGet (applyField attrs (pyLower key) (.vBool b)).2 "type"
      = some (.vStr "MAINTENANCE") :=
    (applyField_preserves_other attrs (pyLower key) (.vBool b) "type" hnottype).trans htype
  obtain ⟨s, hsum, hpos, hiff⟩ :=
    flagSum_bool MAINTENANCE_FLAGS (applyField attrs (pyLower key) (.vBool b)).2 hbool
  have hdec : decide (s ≠ 0) = maintenanceOr (applyField attrs (pyLower key) (.vBool b)).2 := by
    rw [show maintenanceOr (applyField attrs (pyLower key) (.vBool b)).2
        = decide ((maintenanceOr (applyField attrs (pyLower key) (.vBool b)).2) = true) by simp]
    exact decide_eq_decide.mpr (by simpa [maintenanceOr] using hiff)
  simp only [eventCallback, hA, hne, hsplit, eventDecode, hty2, hsum, hdec]
  simp [hflag, hsum, hdec]

/-- C6 (witness): flags `{low_bat: false, sabotage: true}` publish the
maintenance state `true`. -/
theorem C6_maintenance_or_state_witness :
    maintenanceOr (applyField [("type", Value.vStr "MAINTENANCE"),
        ("low_bat", Value.vBool false)] (pyLower "SABOTAGE") (.vBool true)).2 = true ∧
    Effect.publish (.state "DEV" "0") (.mBool true) true
      ∈ (eventCallback ⟨[], [("DEV:0", [("type", Value.vStr "MAINTENANCE"),
          ("low_bat", Value.vBool false)])]⟩ expectedInterfaceId "DEV:0" "SABOTAGE"
          (.vBool true)).effects := by
  have hor : maintenanceOr (applyField [("type", Value.vStr "MAINTENANCE"),
      ("low_bat", Value.vBool false)] (pyLower "SABOTAGE") (.vBool true)).2 = true := by decide
  refine ⟨hor, ?_⟩
  have h := C6_maintenance_or_state
    ⟨[], [("DEV:0", [("type", Value.vStr "MAINTENANCE"), ("low_bat", Value.vBool false)])]⟩
    "DEV:0" "SABOTAGE" true
    [("type", Value.vStr "MAINTENANCE"), ("low_bat", Value.vBool false)] "DEV" "0"
    rfl rfl rfl rfl (by decide) (by decide)
  rw [hor] at h
  exact h

/-- C7: an accepted LEVEL notification on a shutter-transmitter or
shutter-virtual-receiver channel with value `v ∈ [0, 1]` publishes the
integer `round(v * 100)` (Python round, half to even) to the state topic,
retained. -/
theorem C7_shutter_level (st : BridgeState) (address : String) (v : ℚ)
    (attrs : List (String × Value)) (parent index t : String)
    (hA : dictGet st.haAttributes address = some attrs)
    (hne : attrs.isEmpty = false)
    (hsplit : pySplit1 address = some (parent, index))
    (htype : dictGet attrs "type" = some (.vStr t))
    (ht : t = "SHUTTER_TRANSMITTER" ∨ t = "SHUTTER_VIRTUAL_RECEIVER")
    (hv0 : 0 ≤ v) (hv1 : v ≤ 1) :
    Effect.publish (.state parent index) (.mNum ((pyRound (v * 100) : ℤ) : ℚ)) true
      ∈ (eventCallback st expectedInterfaceId address "LEVEL" (.vNum v)).effects := by
  clear hv0 hv1
  have hnottype : "type" ≠ pyLower "LEVEL" := by decide
  have hty2 : dictGet (applyField attrs (pyLower "LEVEL") (.vNum v)).2 "type"
      = some (.vStr t) :=
    (applyField_preserves_other attrs (pyLower "LEVEL") (.vNum v) "type" hnottype).trans htype
  rcases ht with h | h <;> subst h <;>
    simp [eventCallback, hA, hne, hsplit, eventDecode, hty2, toQNum]

/-- C7 (witness): `v = 0.37` publishes 37, `v = 1.0` publishes 100. -/
theorem C7_shutter_level_witness :
    Effect.publish (.state "DEV" "3") (.mNum 37) true
      ∈ (eventCallback ⟨[], [("DEV:3", [("type", Value.vStr "SHUTTER_TRANSMITTER")])]⟩
          expectedInterfaceId "DEV:3" "LEVEL" (.vNum (37 / 100))).effects ∧
    Effect.publish (.state "DEV" "4") (.mNum 100) true
      ∈ (eventCallback ⟨[], [("DEV:4", [("type", Value.vStr "SHUTTER_VIRTUAL_RECEIVER")])]⟩
          expectedInterfaceId "DEV:4" "LEVEL" (.vNum 1)).effects := by
  constructor
  · have h := C7_shutter_level
      ⟨[], [("DEV:3", [("type", Value.vStr "SHUTTER_TRANSMITTER")])]⟩ "DEV:3" (37 / 100)
      [("type", Value.vStr "SHUTTER_TRANSMITTER")] "DEV" "3" "SHUTTER_TRANSMITTER"
      rfl rfl rfl rfl (Or.inl rfl) (by norm_num) (by norm_num)
    have e : ((pyRound ((37 : ℚ) / 100 * 100) : ℤ) : ℚ) = 37 := by norm_num [pyRound]
    rw [e] at h
    exact h
  · have h := C7_shutter_level
      ⟨[], [("DEV:4", [("type", Value.vStr "SHUTTER_VIRTUAL_RECEIVER")])]⟩ "DEV:4" 1
      [("type", Value.vStr "SHUTTER_VIRTUAL_RECEIVER")] "DEV" "4" "SHUTTER_VIRTUAL_RECEIVER"
      rfl rfl rfl rfl (Or.inr rfl) (by norm_num) (by norm_num)
    have e : ((pyRound ((1 : ℚ) * 100) : ℤ) : ℚ) = 100 := by norm_num [pyRound]
    rw [e] at h
    exact h

/-- C8: a set_level command on a cover-capable cover channel invokes the
level-set action with the parsed fraction exactly when the payload parses
as a decimal in [0, 1]; an unparsable or out-of-range payload is logged
and invokes no device action. -/
theorem C8_set_level (tbl : List (String × HmDevice)) (topic addr chanStr : String)
    (ch : Int) (payload : String) (dev : HmDevice) (chan : HmChannel)
    (hsplit : pySplit topic '/' = ["Homematic", addr, chanStr, "set_level"])
    (hint : pyInt chanStr = some ch)
    (hdev : devGet tbl addr = some dev) (hblind : dev.isBlind = true)
    (hchan : chanGet dev.channels ch = some chan)
    (htype : chan.TYPE = "SHUTTER_VIRTUAL_RECEIVER") :
    (∀ q, pyFloat payload = some q → 0 ≤ q → q ≤ 1 →
      processPacket tbl topic (some payload) = [.invoke addr (.setLevel q ch)]) ∧
    ((∀ q, pyFloat payload = some q → ¬(0 ≤ q ∧ q ≤ 1)) →
      ((processPacket tbl topic (some payload)).all fun e => !e.isInvoke) = true) := by
  constructor
  · intro q hq h0 h1
    simp [processPacket, hsplit, hint, hdev, hchan, hblind, htype, hq, h0, h1, COVER_TYPES]
  · intro hbad
    cases hq : pyFloat payload with
    | none =>
      simp [processPacket, hsplit, hint, hdev, hchan, hblind, htype, hq, COVER_TYPES,
        CmdEffect.isInvoke]
    | some q =>
      have hr := hbad q hq
      rw [Classical.not_and_iff_or_not_not] at hr
      rcases hr with h | h <;>
        simp [processPacket, hsplit, hint, hdev, hchan, hblind, htype, hq, COVER_TYPES,
          CmdEffect.isInvoke, h]

/-- C8 (witness): payload "0.42" invokes set_level with 21/50; payload
"1.5" is rejected with no device action. -/
theorem C8_set_level_witness :
    processPacket [("AAA", ⟨true, false, [((4 : Int), ⟨"SHUTTER_VIRTUAL_RECEIVER"⟩)]⟩)]
        "Homematic/AAA/4/set_level" (some "0.42")
      = [.invoke "AAA" (.setLevel (21 / 50) 4)] ∧
    ((processPacket [("AAA", ⟨true, false, [((4 : Int), ⟨"SHUTTER_VIRTUAL_RECEIVER"⟩)]⟩)]
        "Homematic/AAA/4/set_level" (some "1.5")).all fun e => !e.isInvoke) = true := by
  have h42 : pyFloat "0.42" = some (21 / 50) := by
    have h1 : digitsVal ['0'] = 0 := by decide
    have h2 : digitsVal ['4', '2'] = 42 := by decide
    norm_num +decide [pyFloat, stripSign, h1, h2]
  have h15 : pyFloat "1.5" = some (3 / 2) := by
    have h1 : digitsVal ['1'] = 1 := by decide
    have h2 : digitsVal ['5'] = 5 := by decide
    norm_num +decide [pyFloat, stripSign, h1, h2]
  constructor
  · exact (C8_set_level [("AAA", ⟨true, false, [((4 : Int), ⟨"SHUTTER_VIRTUAL_RECEIVER"⟩)]⟩)]
      "Homematic/AAA/4/set_level" "AAA" "4" 4 "0.42"
      ⟨true, false, [((4 : Int), ⟨"SHUTTER_VIRTUAL_RECEIVER"⟩)]⟩ ⟨"SHUTTER_VIRTUAL_RECEIVER"⟩
      (by decide) (by decide) rfl rfl rfl rfl).1 (21 / 50) h42 (by norm_num) (by norm_num)
  · refine (C8_set_level [("AAA", ⟨true, false, [((4 : Int), ⟨"SHUTTER_VIRTUAL_RECEIVER"⟩)]⟩)]
      "Homematic/AAA/4/set_level" "AAA" "4" 4 "1.5"
      ⟨true, false, [((4 : Int), ⟨"SHUTTER_VIRTUAL_RECEIVER"⟩)]⟩ ⟨"SHUTTER_VIRTUAL_RECEIVER"⟩
      (by decide) (by decide) rfl rfl rfl rfl).2 ?_
    intro q hq
    rw [h15] at hq
    cases hq
    norm_num

/-- C9: a bare device address (no colon) receives a snapshot during
discovery of a parentless descriptor, so an event for it passes step-1
acceptance; the handler then raises `ValueError` at the two-name
unpacking of `address.split(":", 1)` instead of completing. -/
theorem C9_bare_address_raises :
    (dictGet (newDevices ⟨[], []⟩
        [[("ADDRESS", Value.vStr "ABC0000000"), ("TYPE", Value.vStr "HmIP-BROLL")]]).1.haAttributes
      "ABC0000000").isSome = true ∧
    (eventCallback (newDevices ⟨[], []⟩
        [[("ADDRESS", Value.vStr "ABC0000000"), ("TYPE", Value.vStr "HmIP-BROLL")]]).1
      expectedInterfaceId "ABC0000000" "UNREACH" (.vBool true)).exc = some .valueError := by
  decide

/-- C10: `_publish` serializes deterministically by type — dicts as JSON,
booleans as the bytes "OFF"/"ON", numbers as their decimal string,
strings as themselves (UTF-8 encoded on the wire); the switch discovery
document declares state_on "ON" / state_off "OFF", and a
switch-virtual-receiver STATE notification publishes the raw boolean,
which therefore arrives on the bus as "ON"/"OFF". -/
theorem C10_publish_serialization :
    (∀ d, serialize (.mDict d) = jsonVal (.vDict d)) ∧
    serialize (.mBool false) = "OFF" ∧
    serialize (.mBool true) = "ON" ∧
    (∀ q, serialize (.mNum q) = numToStr q) ∧
    (∀ s, serialize (.mStr s) = s) ∧
    (∀ pident p i pt t a,
      dictGet (switchConfig pident p i pt t a) "state_on" = some (.vStr "ON") ∧
      dictGet (switchConfig pident p i pt t a) "state_off" = some (.vStr "OFF")) ∧
    (∀ attrs p i b, dictGet attrs "type" = some (.vStr "SWITCH_VIRTUAL_RECEIVER") →
      (eventDecode attrs p i "STATE" (.vBool b)).1
        = [.publish (.state p i) (.mBool b) true] ∧
      serialize (.mBool b) = (if b then "ON" else "OFF")) := by
  refine ⟨fun d => rfl, rfl, rfl, fun q => rfl, fun s => rfl, ?_, ?_⟩
  · intro pident p i pt t a
    constructor <;> simp +decide [switchConfig, dictGet]
  · intro attrs p i b h
    refine ⟨?_, by cases b <;> rfl⟩
    simp +decide [eventDecode, h, toMsg]

/-- C10 (witness): a switch STATE `True` publishes the raw boolean whose
serialization is "ON". -/
theorem C10_publish_serialization_witness :
    (eventDecode [("type", Value.vStr "SWITCH_VIRTUAL_RECEIVER")] "DEV" "4" "STATE"
        (.vBool true)).1 = [.publish (.state "DEV" "4") (.mBool true) true] ∧
    serialize (.mBool true) = "ON" := by
  have h := C10_publish_serialization.2.2.2.2.2.2
    [("type", Value.vStr "SWITCH_VIRTUAL_RECEIVER")] "DEV" "4" true rfl
  exact ⟨h.1, by simpa using h.2⟩
